import Mathlib

/-!
Shallow embedding of `kiwi-mcp` (crates/kiwi_mcp_tools/src/lib.rs): the
`PlanTripTool` query builder (`execute`, lines 21-106, up to the outbound
HTTP send) and the result formatter (`format_flight_results`, lines 197-359).

Modelling conventions:
* JSON values (`serde_json::Value`) are the inductive `Json` below; JSON
  numbers are modelled as exact rationals (`ℚ`).  `as_u64`/`as_i64` succeed
  exactly on integers in the machine range, `as_f64` on every number.
* Rust `format!("{:.2}", x)` on a price is modelled by `fmtF2` (fixed-point
  rendering with two decimals); the claims only evaluate it at exactly
  representable values such as `0`.
* Fallible machine arithmetic is explicit: the `usize` subtraction
  `routes.len() - 1` is embedded as `stopsOf`, whose `none` result is the
  arithmetic-overflow panic Rust raises when the route array is empty
  (debug assertions; an arithmetic-overflow program error in any build).
  Consequently the formatter returns `Option String`: `some s` is the
  `Ok(s)` return of the Rust function (which never returns `Err`), `none`
  is the panic.
* `chrono::DateTime::parse_from_rfc3339` followed by
  `format("%d %b %Y, %H:%M")` is embedded by `parse_from_rfc3339` and
  `renderDateTime`: the parser checks the RFC 3339 grammar
  (`YYYY-MM-DDThh:mm:ss[.f+](Z|±hh:mm)`, case-insensitive `T`/`Z`, calendar
  validation, leap second 60 allowed, offset within ±23:59) and, because
  `parse_from_rfc3339` yields a `DateTime<FixedOffset>` rendered in its own
  offset, the output fields are exactly the wall-clock fields of the input.
-/

/-- `serde_json::Value`, with numbers as exact rationals. Object field
names are unique (serde_json's map); lookup takes the first binding. -/
inductive Json where
  | null : Json
  | bool (b : Bool) : Json
  | num (q : ℚ) : Json
  | str (s : String) : Json
  | arr (xs : List Json) : Json
  | obj (fields : List (String × Json)) : Json

namespace Json

/-- `Value::get(key)`: field lookup, `None` on non-objects. -/
def get (v : Json) (key : String) : Option Json :=
  match v with
  | .obj fields =>
    match fields.find? (fun f => f.1 = key) with
    | some f => some f.2
    | none => none
  | _ => none

/-- `Value::as_str`. -/
def as_str (v : Json) : Option String :=
  match v with
  | .str s => some s
  | _ => none

/-- `Value::as_array`. -/
def as_array (v : Json) : Option (List Json) :=
  match v with
  | .arr xs => some xs
  | _ => none

/-- `Value::as_f64`: every JSON number converts. -/
def as_f64 (v : Json) : Option ℚ :=
  match v with
  | .num q => some q
  | _ => none

/-- `Value::as_u64`: integers in `[0, 2^64)`. -/
def as_u64 (v : Json) : Option Nat :=
  match v with
  | .num q => if q.den = 1 ∧ 0 ≤ q.num ∧ q.num < 2 ^ 64 then some q.num.toNat else none
  | _ => none

/-- `Value::as_i64`: integers in `[-2^63, 2^63)`. -/
def as_i64 (v : Json) : Option Int :=
  match v with
  | .num q => if q.den = 1 ∧ -(2 ^ 63) ≤ q.num ∧ q.num < 2 ^ 63 then some q.num else none
  | _ => none

end Json

/-- The character for the decimal digit `n % 10`. -/
def digitChar (n : Nat) : Char := Char.ofNat (48 + n % 10)

/-- Two-digit zero-padded decimal rendering of `n < 100` (chrono `%d`,
`%H`, `%M`, and the cents of `{:.2}`). -/
def pad2 (n : Nat) : String := String.mk [digitChar (n / 10), digitChar n]

/-- Four-digit zero-padded decimal rendering of `n < 10000` (chrono `%Y`
on the four-digit years the RFC 3339 parser produces). -/
def pad4 (n : Nat) : String :=
  String.mk [digitChar (n / 1000), digitChar (n / 100), digitChar (n / 10), digitChar n]

/-- Rounds `a / b` (with `b > 0`) to the nearest integer, ties to even —
the rounding Rust's formatter applies to the displayed digits. -/
def roundHalfEvenInt (a b : Int) : Int :=
  let n := Int.fdiv a b
  let r := a - n * b
  if b < 2 * r then n + 1
  else if 2 * r < b then n
  else if n % 2 = 0 then n else n + 1

/-- Rust `format!("{:.2}", x)`: sign, integer part, dot, two cent digits
(the value rounded to the nearest cent, ties to even). -/
def fmtF2 (q : ℚ) : String :=
  let cents : Int := roundHalfEvenInt (q.num * 100) (q.den : Int)
  let sign := if cents < 0 then "-" else ""
  sign ++ toString (cents.natAbs / 100) ++ "." ++ pad2 (cents.natAbs % 100)

/-- The wall-clock fields of a parsed RFC 3339 timestamp that the
formatter displays (seconds, fraction and offset are validated during
parsing but not displayed by `%d %b %Y, %H:%M`). -/
structure RfcDateTime where
  year : Nat
  month : Nat
  day : Nat
  hour : Nat
  minute : Nat
deriving DecidableEq

/-- Reads exactly `n` decimal digits, most significant first. -/
def readDigits : Nat → Nat → List Char → Option (Nat × List Char)
  | 0, acc, cs => some (acc, cs)
  | n + 1, acc, c :: cs =>
    if c.isDigit then readDigits n (acc * 10 + (c.toNat - 48)) cs else none
  | _ + 1, _, [] => none

/-- Consumes one required character. -/
def expectChar (c : Char) : List Char → Option (List Char)
  | d :: cs => if d = c then some cs else none
  | [] => none

/-- Consumes a nonempty run of digits (the fractional second). -/
def skipDigits1 : List Char → Option (List Char)
  | c :: cs =>
    if c.isDigit then
      some (cs.dropWhile Char.isDigit)
    else none
  | [] => none

/-- The raw fields of an RFC 3339 timestamp before calendar validation. -/
structure RfcFields where
  year : Nat
  month : Nat
  day : Nat
  hour : Nat
  minute : Nat
  second : Nat
  offHour : Nat
  offMinute : Nat
deriving DecidableEq

/-- Parses the RFC 3339 grammar
`YYYY-MM-DDThh:mm:ss[.f+](Z|±hh:mm)` (with `T`/`Z` case-insensitive),
returning the raw numeric fields; the whole string must be consumed. -/
def parseRfcFields (cs : List Char) : Option RfcFields :=
  match readDigits 4 0 cs with
  | none => none
  | some (year, cs) =>
  match expectChar '-' cs with
  | none => none
  | some cs =>
  match readDigits 2 0 cs with
  | none => none
  | some (month, cs) =>
  match expectChar '-' cs with
  | none => none
  | some cs =>
  match readDigits 2 0 cs with
  | none => none
  | some (day, cs) =>
  match cs with
  | [] => none
  | c :: cs =>
  if c = 'T' ∨ c = 't' then
    match readDigits 2 0 cs with
    | none => none
    | some (hour, cs) =>
    match expectChar ':' cs with
    | none => none
    | some cs =>
    match readDigits 2 0 cs with
    | none => none
    | some (minute, cs) =>
    match expectChar ':' cs with
    | none => none
    | some cs =>
    match readDigits 2 0 cs with
    | none => none
    | some (second, cs) =>
    match (match cs with | '.' :: rest => skipDigits1 rest | rest => some rest) with
    | none => none
    | some cs =>
    match cs with
    | [] => none
    | c :: rest =>
      if c = 'Z' ∨ c = 'z' then
        match rest with
        | [] => some ⟨year, month, day, hour, minute, second, 0, 0⟩
        | _ => none
      else if c = '+' ∨ c = '-' then
        match readDigits 2 0 rest with
        | none => none
        | some (offHour, rest) =>
        match expectChar ':' rest with
        | none => none
        | some rest =>
        match readDigits 2 0 rest with
        | none => none
        | some (offMinute, rest) =>
        match rest with
        | [] => some ⟨year, month, day, hour, minute, second, offHour, offMinute⟩
        | _ => none
      else none
  else none

/-- Proleptic Gregorian leap-year rule. -/
def isLeapYear (y : Nat) : Bool :=
  y % 4 = 0 ∧ (y % 100 ≠ 0 ∨ y % 400 = 0)

/-- Days in a month of the proleptic Gregorian calendar. -/
def daysInMonth (y m : Nat) : Nat :=
  if m = 2 then (if isLeapYear y then 29 else 28)
  else if m = 4 ∨ m = 6 ∨ m = 9 ∨ m = 11 then 30
  else 31

/-- Calendar and range validation applied after the grammar: real date,
hour/minute in range, leap second 60 tolerated, offset strictly inside
one day. -/
def validRfcFields (f : RfcFields) : Bool :=
  1 ≤ f.month ∧ f.month ≤ 12 ∧ 1 ≤ f.day ∧ f.day ≤ daysInMonth f.year f.month ∧
    f.hour ≤ 23 ∧ f.minute ≤ 59 ∧ f.second ≤ 60 ∧ f.offHour ≤ 23 ∧ f.offMinute ≤ 59

/-- `chrono::DateTime::parse_from_rfc3339`, restricted to the fields the
program later displays. -/
def parse_from_rfc3339 (s : String) : Option RfcDateTime :=
  match parseRfcFields s.toList with
  | some f =>
    if validRfcFields f then some ⟨f.year, f.month, f.day, f.hour, f.minute⟩ else none
  | none => none

/-- chrono `%b`: abbreviated month name. -/
def monthName (m : Nat) : String :=
  match m with
  | 1 => "Jan" | 2 => "Feb" | 3 => "Mar" | 4 => "Apr" | 5 => "May" | 6 => "Jun"
  | 7 => "Jul" | 8 => "Aug" | 9 => "Sep" | 10 => "Oct" | 11 => "Nov" | 12 => "Dec"
  | _ => "???"

/-- chrono `format("%d %b %Y, %H:%M")` on the parsed timestamp: a
`DateTime<FixedOffset>` renders in its own offset, so the displayed fields
are the wall-clock fields kept in `RfcDateTime`. -/
def renderDateTime (dt : RfcDateTime) : String :=
  pad2 dt.day ++ " " ++ monthName dt.month ++ " " ++ pad4 dt.year ++ ", " ++
    pad2 dt.hour ++ ":" ++ pad2 dt.minute

/-- Lines 235-247: parse the timestamp as RFC 3339 and re-render it, or
pass the original string through unchanged. -/
def format_timestamp (s : String) : String :=
  match parse_from_rfc3339 s with
  | some dt => renderDateTime dt
  | none => s

/-- Whether a string has the shape `DD Mon YYYY, HH:MM`: two digits,
space, a three-letter month abbreviation, space, four digits, comma,
space, two digits, colon, two digits. -/
def dateShape (s : String) : Bool :=
  match s.toList with
  | [d1, d2, s1, m1, m2, m3, s2, y1, y2, y3, y4, c1, c2, h1, h2, co, n1, n2] =>
    d1.isDigit && d2.isDigit && s1 == ' ' &&
      (["Jan", "Feb", "Mar", "Apr", "May", "Jun", "Jul", "Aug", "Sep", "Oct",
        "Nov", "Dec"].contains (String.mk [m1, m2, m3])) &&
      s2 == ' ' && y1.isDigit && y2.isDigit && y3.isDigit && y4.isDigit &&
      c1 == ',' && c2 == ' ' && h1.isDigit && h2.isDigit && co == ':' &&
      n1.isDigit && n2.isDigit
  | _ => false

/-- Lines 272-276: `flight.get("route").and_then(as_array).map(|routes|
routes.len() - 1).unwrap_or(0)`.  The subtraction is on `usize`; when the
route array is empty it overflows, which is the panic `none`. -/
def stopsOf (flight : Json) : Option Nat :=
  match (flight.get "route").bind Json.as_array with
  | some routes => if routes.length = 0 then none else some (routes.length - 1)
  | none => some 0

/-- Lines 278-282: the `Stops:` description. -/
def stop_description (stops : Nat) : String :=
  match stops with
  | 0 => "Direct flight"
  | 1 => "1 stopover"
  | n => toString n ++ " stopovers"

/-- Lines 285-291: the baggage line. -/
def baggage_info (flight : Json) (currency : String) : String :=
  match flight.get "bags_price" with
  | some bags_price =>
    let first_bag_price := ((bags_price.get "1").bind Json.as_f64).getD 0
    "First checked bag: " ++ fmtF2 first_bag_price ++ " " ++ currency
  | none => "Baggage information not available"

/-- Lines 317-344: the `Route details:` section appended when the flight
has stopovers. -/
def routeDetails (flight : Json) (stops : Nat) : String :=
  if stops > 0 then
    match (flight.get "route").bind Json.as_array with
    | some routes =>
      "Route details:\n" ++
        String.join ((routes.enum.map fun jr =>
          let route_from := ((jr.2.get "cityFrom").bind Json.as_str).getD "Unknown"
          let route_to := ((jr.2.get "cityTo").bind Json.as_str).getD "Unknown"
          let route_airline := ((jr.2.get "airline").bind Json.as_str).getD "Unknown"
          "  Leg " ++ toString (jr.1 + 1) ++ ": " ++ route_from ++ " → " ++
            route_to ++ " (" ++ route_airline ++ ")\n"))
    | none => ""
  else ""

/-- Lines 205-344: the text pushed for the flight at index `i` (every
line of the per-offer block, plus the route-details section).  `none` is
the panic of `stopsOf` on an empty route array. -/
def formatFlight (i : Nat) (flight : Json) (currency : String) : Option String :=
  let price := ((flight.get "price").bind Json.as_f64).getD 0
  let from_city := ((flight.get "cityFrom").bind Json.as_str).getD "Unknown"
  let to_city := ((flight.get "cityTo").bind Json.as_str).getD "Unknown"
  let from_code := ((flight.get "flyFrom").bind Json.as_str).getD "???"
  let to_code := ((flight.get "flyTo").bind Json.as_str).getD "???"
  let departure := ((flight.get "local_departure").bind Json.as_str).getD "Unknown"
  let arrival := ((flight.get "local_arrival").bind Json.as_str).getD "Unknown"
  let departure_formatted := format_timestamp departure
  let arrival_formatted := format_timestamp arrival
  let duration_minutes := (((flight.get "duration").bind (fun d => d.get "total")).bind
    Json.as_i64).getD 0
  let hours := Int.tdiv duration_minutes 60
  let minutes := Int.tmod duration_minutes 60
  let airlines := (((flight.get "airlines").bind Json.as_array).map fun airlines =>
    String.intercalate ", " (airlines.filterMap Json.as_str)).getD "Unknown"
  match stopsOf flight with
  | none => none
  | some stops =>
    some ("Flight " ++ toString (i + 1) ++ ": " ++ from_city ++ " (" ++ from_code ++
      ") → " ++ to_city ++ " (" ++ to_code ++ ")\n" ++
      "Price: " ++ fmtF2 price ++ " " ++ currency ++ "\n" ++
      "Departure: " ++ departure_formatted ++ "\n" ++
      "Arrival: " ++ arrival_formatted ++ "\n" ++
      "Duration: " ++ toString hours ++ "h " ++ toString minutes ++ "m\n" ++
      "Airline(s): " ++ airlines ++ "\n" ++
      "Stops: " ++ stop_description stops ++ "\n" ++
      baggage_info flight currency ++ "\n" ++
      "Booking link: " ++ (((flight.get "deep_link").bind Json.as_str).getD
        "Booking link not available") ++ "\n" ++
      routeDetails flight stops)

/-- Lines 205-350: the `for (i, flight) in data.iter().enumerate()` loop,
starting at index `i` with `total = data.len()`; the separator `\n---\n\n`
is appended exactly when `i < total - 1`. -/
def formatFlights (currency : String) (total : Nat) : Nat → List Json → Option String
  | _, [] => some ""
  | i, flight :: rest =>
    match formatFlight i flight currency with
    | none => none
    | some block =>
      match formatFlights currency total (i + 1) rest with
      | none => none
      | some tail =>
        some (block ++ (if i < total - 1 then "\n---\n\n" else "") ++ tail)

/-- Lines 197-359: `format_flight_results`.  The Rust function always
returns `Ok`; `some s` is that return and `none` is the arithmetic
overflow panic inside the loop. -/
def format_flight_results (response : Json) (currency : String) : Option String :=
  match (response.get "data").bind Json.as_array with
  | some data =>
    if data.length = 0 then
      some "No flights found matching your criteria."
    else
      match formatFlights currency data.length 0 data with
      | none => none
      | some body =>
        some ("Found " ++ toString data.length ++ " flights matching your criteria:\n\n"
          ++ body)
  | none =>
    some "Unable to retrieve flight information. The API response was in an unexpected format."

/-- The outbound HTTP request assembled by `execute` (method, URI and
headers of the `Request::builder()` chain, lines 99-104). -/
structure Request where
  method : String
  uri : String
  headers : List (String × String)

/-- Lines 25-44: `args.get(k).and_then(as_str).ok_or(anyhow!(msg))` for a
mandatory string parameter. -/
def requireStr (args : Json) (key errMsg : String) : Except String String :=
  match (args.get key).bind Json.as_str with
  | some s => Except.ok s
  | none => Except.error errMsg

/-- Lines 80-82: the `&return_from=` fragment pushed onto the URL when
the optional parameter is present as a string, and nothing otherwise. -/
def return_from_suffix (args : Json) : String :=
  match (args.get "return_from").bind Json.as_str with
  | some v => "&return_from=" ++ v
  | none => ""

/-- Lines 83-85: the `&return_to=` fragment pushed onto the URL when the
optional parameter is present as a string, and nothing otherwise. -/
def return_to_suffix (args : Json) : String :=
  match (args.get "return_to").bind Json.as_str with
  | some v => "&return_to=" ++ v
  | none => ""

/-- Lines 63-77: the `format!` building the search URL from the four
mandatory parameters and the defaulted optional ones. -/
def searchUrl (fly_from fly_to date_from date_to : String) (adults children infants : Nat)
    (selected_cabins curr : String) (max_stopovers : Nat) (sort : String) (limit : Nat) :
    String :=
  "https://api.tequila.kiwi.com/v2/search?fly_from=" ++ (fly_from ++
    ("&fly_to=" ++ (fly_to ++
    ("&date_from=" ++ (date_from ++
    ("&date_to=" ++ (date_to ++
    ("&adults=" ++ (toString adults ++
    ("&children=" ++ (toString children ++
    ("&infants=" ++ (toString infants ++
    ("&selected_cabins=" ++ (selected_cabins ++
    ("&curr=" ++ (curr ++
    ("&max_stopovers=" ++ (toString max_stopovers ++
    ("&sort=" ++ (sort ++
    ("&limit=" ++ toString limit))))))))))))))))))))))

/-- Lines 47-85: the full request URL — defaulted optional parameters
into `searchUrl`, then the two conditional return-date fragments. -/
def requestUrl (args : Json) (fly_from fly_to date_from date_to : String) : String :=
  searchUrl fly_from fly_to date_from date_to
    (((args.get "adults").bind Json.as_u64).getD 1)
    (((args.get "children").bind Json.as_u64).getD 0)
    (((args.get "infants").bind Json.as_u64).getD 0)
    (((args.get "selected_cabins").bind Json.as_str).getD "M")
    (((args.get "curr").bind Json.as_str).getD "EUR")
    (((args.get "max_stopovers").bind Json.as_u64).getD 2)
    (((args.get "sort").bind Json.as_str).getD "price")
    (((args.get "limit").bind Json.as_u64).getD 5) ++
    return_from_suffix args ++ return_to_suffix args

/-- Lines 21-106 of `PlanTripTool::execute`, up to the outbound HTTP
send: argument validation, defaulting, URL construction, API-key lookup
(`env::var("KIWI_API_KEY")` is the `apiKey` argument) and request
assembly.  The injected HTTP client's `send` is invoked exactly when this
returns `Except.ok`; an `Except.error` is the early `?`/`ok_or_else`
return of the Rust function before any network activity. -/
def execute (arguments : Option Json) (apiKey : Option String) : Except String Request :=
  match arguments with
  | none => Except.error "Missing arguments"
  | some args =>
  match requireStr args "fly_from" "Missing or invalid fly_from parameter" with
  | Except.error e => Except.error e
  | Except.ok fly_from =>
  match requireStr args "fly_to" "Missing or invalid fly_to parameter" with
  | Except.error e => Except.error e
  | Except.ok fly_to =>
  match requireStr args "date_from" "Missing or invalid date_from parameter" with
  | Except.error e => Except.error e
  | Except.ok date_from =>
  match requireStr args "date_to" "Missing or invalid date_to parameter" with
  | Except.error e => Except.error e
  | Except.ok date_to =>
  match apiKey with
  | none => Except.error "KIWI_API_KEY not set in environment"
  | some key =>
    Except.ok ⟨"GET", requestUrl args fly_from fly_to date_from date_to,
      [("apikey", key), ("Accept", "application/json")]⟩

/-- The query parameter `key=value` occurs in the URL string. -/
def containsParam (url key value : String) : Prop :=
  ∃ pre post, url = pre ++ (key ++ "=" ++ value) ++ post

/-- A `&key=value` query-string fragment for each listed pair, used to
state which parameters the built URL carries. -/
def paramsTail : List (String × String) → String
  | [] => ""
  | (k, v) :: ps => "&" ++ k ++ "=" ++ v ++ paramsTail ps

/-- The per-offer blocks of the loop, in order, starting at index `i`;
`none` when some block panics. -/
def blocksOf (currency : String) : Nat → List Json → Option (List String)
  | _, [] => some []
  | i, flight :: rest =>
    match formatFlight i flight currency with
    | none => none
    | some b =>
      match blocksOf currency (i + 1) rest with
      | none => none
      | some bs => some (b :: bs)

/-- Blocks joined with the fixed divider `\n---\n\n` between consecutive
blocks and nothing after the last. -/
def joinWithDivider : List String → String
  | [] => ""
  | [b] => b
  | b :: bs => b ++ "\n---\n\n" ++ joinWithDivider bs

/-- C1: the claim that `format_flight_results` succeeds on every JSON
response fails at a response whose offer has `route` present as an empty
array: `routes.len() - 1` is a `usize` subtraction of 1 from 0, an
arithmetic overflow (a panic with overflow checks; a program error in
any build), modelled by the `none` result — the formatter aborts instead
of degrading to a placeholder. -/
theorem format_flight_results_overflow_on_empty_route :
    format_flight_results
      (Json.obj [("data", Json.arr [Json.obj [("route", Json.arr [])]])]) "EUR" = none := rfl

/-- C2: for a present, non-empty route array of N legs the stopover count
is N − 1 (a natural number, never negative), rendered as `Direct flight`
when 0, `1 stopover` when 1 and `N stopovers` when greater than 1; an
absent route field defaults the count to 0, rendered `Direct flight`. -/
theorem stopover_count_and_rendering (flight : Json) (routes : List Json) :
    ((flight.get "route").bind Json.as_array = some routes → routes ≠ [] →
      stopsOf flight = some (routes.length - 1) ∧
      (routes.length - 1 = 0 → stop_description (routes.length - 1) = "Direct flight") ∧
      (routes.length - 1 = 1 → stop_description (routes.length - 1) = "1 stopover") ∧
      (1 < routes.length - 1 →
        stop_description (routes.length - 1) =
          toString (routes.length - 1) ++ " stopovers")) ∧
    (flight.get "route" = none →
      stopsOf flight = some 0 ∧ stop_description 0 = "Direct flight") := by
  constructor
  · intro h hne
    have hlen : ¬ routes.length = 0 := by simpa using hne
    refine ⟨by unfold stopsOf; rw [h]; simp [hlen], ?_, ?_, ?_⟩
    · intro h0; rw [h0]; rfl
    · intro h1; rw [h1]; rfl
    · intro h2
      obtain ⟨m, hm⟩ : ∃ m, routes.length - 1 = m + 2 :=
        ⟨routes.length - 3, by omega⟩
      rw [hm]; rfl
  · intro h
    exact ⟨by unfold stopsOf; rw [h]; rfl, rfl⟩

/-- Witness for C2 at a concrete three-leg route. -/
theorem stopover_count_and_rendering_witness :
    stopsOf (Json.obj [("route", Json.arr [Json.obj [], Json.obj [], Json.obj []])]) =
      some 2 ∧ stop_description 2 = "2 stopovers" := by
  have h := (stopover_count_and_rendering
    (Json.obj [("route", Json.arr [Json.obj [], Json.obj [], Json.obj []])])
    [Json.obj [], Json.obj [], Json.obj []]).1 rfl (by simp)
  exact ⟨h.1, h.2.2.2 (by norm_num)⟩

/-- C4: when `fly_from` is present as a string but `fly_to` is absent or
not a string, `execute` fails with the error naming `fly_to`, and the
outbound HTTP send (which happens only on an `ok` request) is never
reached. -/
theorem execute_missing_fly_to (args : Json) (apiKey : Option String) (ff : String)
    (hff : (args.get "fly_from").bind Json.as_str = some ff)
    (hft : (args.get "fly_to").bind Json.as_str = none) :
    execute (some args) apiKey = Except.error "Missing or invalid fly_to parameter" ∧
    ∀ req, execute (some args) apiKey ≠ Except.ok req := by
  have h : execute (some args) apiKey = Except.error "Missing or invalid fly_to parameter" := by
    simp [execute, requireStr, hff, hft, Except.bind]
  exact ⟨h, fun req hc => by rw [h] at hc; exact Except.noConfusion hc⟩

/-- Witness for C4 at an argument bag holding only `fly_from`. -/
theorem execute_missing_fly_to_witness :
    execute (some (Json.obj [("fly_from", Json.str "LHR")])) (some "K") =
      Except.error "Missing or invalid fly_to parameter" :=
  (execute_missing_fly_to (Json.obj [("fly_from", Json.str "LHR")]) (some "K") "LHR"
    rfl rfl).1

/-- C5: when the `data` field is absent or not an array the formatter
still succeeds, returning exactly the fixed diagnostic line. -/
theorem format_flight_results_unexpected_format (response : Json) (currency : String)
    (h : (response.get "data").bind Json.as_array = none) :
    format_flight_results response currency =
      some "Unable to retrieve flight information. The API response was in an unexpected format." := by
  unfold format_flight_results
  rw [h]

/-- Witness for C5 at the empty-object response. -/
theorem format_flight_results_unexpected_format_witness :
    ((Json.obj []).get "data").bind Json.as_array = none ∧
    format_flight_results (Json.obj []) "EUR" =
      some "Unable to retrieve flight information. The API response was in an unexpected format." :=
  ⟨rfl, format_flight_results_unexpected_format (Json.obj []) "EUR" rfl⟩

/-- C6: when the `data` field is an empty array the formatter returns
exactly the fixed no-flights line. -/
theorem format_flight_results_no_flights (response : Json) (currency : String)
    (h : (response.get "data").bind Json.as_array = some []) :
    format_flight_results response currency =
      some "No flights found matching your criteria." := by
  unfold format_flight_results
  rw [h]
  rfl

/-- Witness for C6 at `{"data": []}`. -/
theorem format_flight_results_no_flights_witness :
    ((Json.obj [("data", Json.arr [])]).get "data").bind Json.as_array = some [] ∧
    format_flight_results (Json.obj [("data", Json.arr [])]) "EUR" =
      some "No flights found matching your criteria." :=
  ⟨rfl, format_flight_results_no_flights (Json.obj [("data", Json.arr [])]) "EUR" rfl⟩

/-- C10: when `bags_price` is present as any JSON value, the baggage line
is always the price line — with amount `0.00` in the request currency
whenever no numeric `"1"` entry exists — and the `Baggage information not
available` message is produced exactly when `bags_price` is absent. -/
theorem baggage_line_rendering (flight : Json) (currency : String) :
    (∀ v, flight.get "bags_price" = some v →
      ((v.get "1").bind Json.as_f64 = none →
        baggage_info flight currency = "First checked bag: 0.00 " ++ currency) ∧
      ∃ p, baggage_info flight currency = "First checked bag: " ++ p ++ " " ++ currency) ∧
    (flight.get "bags_price" = none →
      baggage_info flight currency = "Baggage information not available") := by
  constructor
  · intro v hv
    constructor
    · intro h1
      simp only [baggage_info, hv, h1]
      rfl
    · exact ⟨fmtF2 (((v.get "1").bind Json.as_f64).getD 0),
        by simp only [baggage_info, hv]⟩
  · intro h
    unfold baggage_info
    rw [h]

/-- Witness for C10 at `bags_price` present as a non-object value. -/
theorem baggage_line_rendering_witness :
    baggage_info (Json.obj [("bags_price", Json.str "x")]) "EUR" =
      "First checked bag: 0.00 EUR" :=
  ((baggage_line_rendering (Json.obj [("bags_price", Json.str "x")]) "EUR").1
    (Json.str "x") rfl).1 rfl

/-- Any listed pair occurs as a query parameter of a URL that embeds the
rendered fragment list. -/
theorem containsParam_paramsTail :
    ∀ (ps : List (String × String)) (k v a b : String),
      (k, v) ∈ ps → containsParam (a ++ paramsTail ps ++ b) k v := by
  intro ps k v
  induction ps with
  | nil => intro a b h; cases h
  | cons p ps ih =>
    intro a b h
    rcases List.mem_cons.mp h with heq | hmem
    · cases heq.symm
      refine ⟨a ++ "&", paramsTail ps ++ b, ?_⟩
      simp only [paramsTail, String.append_assoc]
    · have heq2 : a ++ paramsTail (p :: ps) ++ b =
          (a ++ ("&" ++ p.1 ++ "=" ++ p.2)) ++ paramsTail ps ++ b := by
        simp only [paramsTail, String.append_assoc]
      rw [heq2]
      exact ih (a ++ ("&" ++ p.1 ++ "=" ++ p.2)) b hmem

/-- C3 fails as stated: at an argument bag holding only the four
mandatory fields, the built URL still carries the optional `adults`
parameter (with its default value `1`) although `adults` is absent from
the bag — optional parameters other than the return dates appear
unconditionally. -/
theorem optional_param_in_url_despite_absence :
    (Json.obj [("fly_from", Json.str "LHR"), ("fly_to", Json.str "NYC"),
      ("date_from", Json.str "01/06/2025"), ("date_to", Json.str "15/06/2025")]).get
        "adults" = none ∧
    execute (some (Json.obj [("fly_from", Json.str "LHR"), ("fly_to", Json.str "NYC"),
        ("date_from", Json.str "01/06/2025"), ("date_to", Json.str "15/06/2025")]))
        (some "TESTKEY") =
      Except.ok ⟨"GET",
        "https://api.tequila.kiwi.com/v2/search?fly_from=LHR&fly_to=NYC&date_from=01/06/2025&date_to=15/06/2025&adults=1&children=0&infants=0&selected_cabins=M&curr=EUR&max_stopovers=2&sort=price&limit=5",
        [("apikey", "TESTKEY"), ("Accept", "application/json")]⟩ ∧
    containsParam
      "https://api.tequila.kiwi.com/v2/search?fly_from=LHR&fly_to=NYC&date_from=01/06/2025&date_to=15/06/2025&adults=1&children=0&infants=0&selected_cabins=M&curr=EUR&max_stopovers=2&sort=price&limit=5"
      "adults" "1" :=
  ⟨rfl, rfl,
    ⟨"https://api.tequila.kiwi.com/v2/search?fly_from=LHR&fly_to=NYC&date_from=01/06/2025&date_to=15/06/2025&",
     "&children=0&infants=0&selected_cabins=M&curr=EUR&max_stopovers=2&sort=price&limit=5",
     rfl⟩⟩

/-- C3 (amended): with the four mandatory fields present as strings and
the API key configured, `execute` yields a GET request carrying the
`apikey` and `Accept: application/json` headers, whose URL contains a
query parameter for each mandatory field and for every defaulted optional
field (these always appear, with their default when absent from the bag),
while the `return_from`/`return_to` parameters are appended exactly when
present as strings in the bag. -/
theorem execute_request_shape (args : Json) (key ff ft df dt : String)
    (hff : (args.get "fly_from").bind Json.as_str = some ff)
    (hft : (args.get "fly_to").bind Json.as_str = some ft)
    (hdf : (args.get "date_from").bind Json.as_str = some df)
    (hdt : (args.get "date_to").bind Json.as_str = some dt) :
    execute (some args) (some key) =
      Except.ok ⟨"GET", requestUrl args ff ft df dt,
        [("apikey", key), ("Accept", "application/json")]⟩ ∧
    containsParam (requestUrl args ff ft df dt) "fly_from" ff ∧
    containsParam (requestUrl args ff ft df dt) "fly_to" ft ∧
    containsParam (requestUrl args ff ft df dt) "date_from" df ∧
    containsParam (requestUrl args ff ft df dt) "date_to" dt ∧
    containsParam (requestUrl args ff ft df dt) "adults"
      (toString (((args.get "adults").bind Json.as_u64).getD 1)) ∧
    containsParam (requestUrl args ff ft df dt) "children"
      (toString (((args.get "children").bind Json.as_u64).getD 0)) ∧
    containsParam (requestUrl args ff ft df dt) "infants"
      (toString (((args.get "infants").bind Json.as_u64).getD 0)) ∧
    containsParam (requestUrl args ff ft df dt) "selected_cabins"
      (((args.get "selected_cabins").bind Json.as_str).getD "M") ∧
    containsParam (requestUrl args ff ft df dt) "curr"
      (((args.get "curr").bind Json.as_str).getD "EUR") ∧
    containsParam (requestUrl args ff ft df dt) "max_stopovers"
      (toString (((args.get "max_stopovers").bind Json.as_u64).getD 2)) ∧
    containsParam (requestUrl args ff ft df dt) "sort"
      (((args.get "sort").bind Json.as_str).getD "price") ∧
    containsParam (requestUrl args ff ft df dt) "limit"
      (toString (((args.get "limit").bind Json.as_u64).getD 5)) ∧
    (∀ rv, (args.get "return_from").bind Json.as_str = some rv →
      containsParam (requestUrl args ff ft df dt) "return_from" rv) ∧
    ((args.get "return_from").bind Json.as_str = none → return_from_suffix args = "") ∧
    (∀ rv, (args.get "return_to").bind Json.as_str = some rv →
      containsParam (requestUrl args ff ft df dt) "return_to" rv) ∧
    ((args.get "return_to").bind Json.as_str = none → return_to_suffix args = "") := by
  have hU : requestUrl args ff ft df dt =
      ("https://api.tequila.kiwi.com/v2/search?fly_from=" ++ ff) ++
        paramsTail [("fly_to", ft), ("date_from", df), ("date_to", dt),
          ("adults", toString (((args.get "adults").bind Json.as_u64).getD 1)),
          ("children", toString (((args.get "children").bind Json.as_u64).getD 0)),
          ("infants", toString (((args.get "infants").bind Json.as_u64).getD 0)),
          ("selected_cabins", ((args.get "selected_cabins").bind Json.as_str).getD "M"),
          ("curr", ((args.get "curr").bind Json.as_str).getD "EUR"),
          ("max_stopovers", toString (((args.get "max_stopovers").bind Json.as_u64).getD 2)),
          ("sort", ((args.get "sort").bind Json.as_str).getD "price"),
          ("limit", toString (((args.get "limit").bind Json.as_u64).getD 5))] ++
        (return_from_suffix args ++ return_to_suffix args) := by
    simp only [requestUrl, searchUrl, paramsTail, String.append_assoc]
    rfl
  refine ⟨by simp only [execute, requireStr, hff, hft, hdf, hdt], ?_, ?_, ?_, ?_,
    ?_, ?_, ?_, ?_, ?_, ?_, ?_, ?_, ?_, ?_, ?_, ?_⟩
  · rw [hU]
    refine ⟨"https://api.tequila.kiwi.com/v2/search?",
      paramsTail [("fly_to", ft), ("date_from", df), ("date_to", dt),
          ("adults", toString (((args.get "adults").bind Json.as_u64).getD 1)),
          ("children", toString (((args.get "children").bind Json.as_u64).getD 0)),
          ("infants", toString (((args.get "infants").bind Json.as_u64).getD 0)),
          ("selected_cabins", ((args.get "selected_cabins").bind Json.as_str).getD "M"),
          ("curr", ((args.get "curr").bind Json.as_str).getD "EUR"),
          ("max_stopovers", toString (((args.get "max_stopovers").bind Json.as_u64).getD 2)),
          ("sort", ((args.get "sort").bind Json.as_str).getD "price"),
          ("limit", toString (((args.get "limit").bind Json.as_u64).getD 5))] ++
        (return_from_suffix args ++ return_to_suffix args), ?_⟩
    simp only [String.append_assoc]
    rfl
  · rw [hU]; exact containsParam_paramsTail _ _ _ _ _ (by simp)
  · rw [hU]; exact containsParam_paramsTail _ _ _ _ _ (by simp)
  · rw [hU]; exact containsParam_paramsTail _ _ _ _ _ (by simp)
  · rw [hU]; exact containsParam_paramsTail _ _ _ _ _ (by simp)
  · rw [hU]; exact containsParam_paramsTail _ _ _ _ _ (by simp)
  · rw [hU]; exact containsParam_paramsTail _ _ _ _ _ (by simp)
  · rw [hU]; exact containsParam_paramsTail _ _ _ _ _ (by simp)
  · rw [hU]; exact containsParam_paramsTail _ _ _ _ _ (by simp)
  · rw [hU]; exact containsParam_paramsTail _ _ _ _ _ (by simp)
  · rw [hU]; exact containsParam_paramsTail _ _ _ _ _ (by simp)
  · rw [hU]; exact containsParam_paramsTail _ _ _ _ _ (by simp)
  · intro rv hrv
    have hs : return_from_suffix args = "&return_from=" ++ rv := by
      simp only [return_from_suffix, hrv]
    refine ⟨searchUrl ff ft df dt (((args.get "adults").bind Json.as_u64).getD 1)
        (((args.get "children").bind Json.as_u64).getD 0)
        (((args.get "infants").bind Json.as_u64).getD 0)
        (((args.get "selected_cabins").bind Json.as_str).getD "M")
        (((args.get "curr").bind Json.as_str).getD "EUR")
        (((args.get "max_stopovers").bind Json.as_u64).getD 2)
        (((args.get "sort").bind Json.as_str).getD "price")
        (((args.get "limit").bind Json.as_u64).getD 5) ++ "&",
      return_to_suffix args, ?_⟩
    simp only [requestUrl, hs, String.append_assoc]
    rfl
  · intro h; simp only [return_from_suffix, h]
  · intro rv hrv
    have hs : return_to_suffix args = "&return_to=" ++ rv := by
      simp only [return_to_suffix, hrv]
    refine ⟨searchUrl ff ft df dt (((args.get "adults").bind Json.as_u64).getD 1)
        (((args.get "children").bind Json.as_u64).getD 0)
        (((args.get "infants").bind Json.as_u64).getD 0)
        (((args.get "selected_cabins").bind Json.as_str).getD "M")
        (((args.get "curr").bind Json.as_str).getD "EUR")
        (((args.get "max_stopovers").bind Json.as_u64).getD 2)
        (((args.get "sort").bind Json.as_str).getD "price")
        (((args.get "limit").bind Json.as_u64).getD 5) ++ return_from_suffix args ++ "&",
      "", ?_⟩
    simp only [requestUrl, hs, String.append_assoc, String.append_empty]
    rfl
  · intro h; simp only [return_to_suffix, h]

/-- Witness for the amended C3 at a bag with the four mandatory fields
and a `return_from` date. -/
theorem execute_request_shape_witness :
    execute (some (Json.obj [("fly_from", Json.str "LHR"), ("fly_to", Json.str "NYC"),
        ("date_from", Json.str "01/06/2025"), ("date_to", Json.str "15/06/2025"),
        ("return_from", Json.str "20/06/2025")])) (some "KEY") =
      Except.ok ⟨"GET",
        requestUrl (Json.obj [("fly_from", Json.str "LHR"), ("fly_to", Json.str "NYC"),
          ("date_from", Json.str "01/06/2025"), ("date_to", Json.str "15/06/2025"),
          ("return_from", Json.str "20/06/2025")]) "LHR" "NYC" "01/06/2025" "15/06/2025",
        [("apikey", "KEY"), ("Accept", "application/json")]⟩ ∧
    containsParam
      (requestUrl (Json.obj [("fly_from", Json.str "LHR"), ("fly_to", Json.str "NYC"),
        ("date_from", Json.str "01/06/2025"), ("date_to", Json.str "15/06/2025"),
        ("return_from", Json.str "20/06/2025")]) "LHR" "NYC" "01/06/2025" "15/06/2025")
      "adults" "1" ∧
    containsParam
      (requestUrl (Json.obj [("fly_from", Json.str "LHR"), ("fly_to", Json.str "NYC"),
        ("date_from", Json.str "01/06/2025"), ("date_to", Json.str "15/06/2025"),
        ("return_from", Json.str "20/06/2025")]) "LHR" "NYC" "01/06/2025" "15/06/2025")
      "return_from" "20/06/2025" := by
  obtain ⟨h1, h2, h3, h4, h5, h6, h7, h8, h9, h10, h11, h12, h13, h14, h15, h16, h17⟩ :=
    execute_request_shape
      (Json.obj [("fly_from", Json.str "LHR"), ("fly_to", Json.str "NYC"),
        ("date_from", Json.str "01/06/2025"), ("date_to", Json.str "15/06/2025"),
        ("return_from", Json.str "20/06/2025")])
      "KEY" "LHR" "NYC" "01/06/2025" "15/06/2025" rfl rfl rfl rfl
  exact ⟨h1, h6, h14 "20/06/2025" rfl⟩

/-- One-step unfolding of the loop on a non-empty list. -/
theorem formatFlights_cons (currency : String) (total i : Nat) (flight : Json)
    (rest : List Json) :
    formatFlights currency total i (flight :: rest) =
      match formatFlight i flight currency with
      | none => none
      | some block =>
        match formatFlights currency total (i + 1) rest with
        | none => none
        | some tail =>
          some (block ++ (if i < total - 1 then "\n---\n\n" else "") ++ tail) := rfl

/-- The indexed loop with its `if i < total - 1` separator test produces
exactly the blocks joined by one divider between consecutive blocks and
none after the last. -/
theorem formatFlights_eq_joinWithDivider :
    ∀ (rest : List Json) (i : Nat) (blocks : List String) (currency : String),
      blocksOf currency i rest = some blocks →
      formatFlights currency (i + rest.length) i rest = some (joinWithDivider blocks) := by
  intro rest
  induction rest with
  | nil =>
    intro i blocks currency h
    simp only [blocksOf] at h
    cases h
    rfl
  | cons f rest ih =>
    intro i blocks currency h
    simp only [blocksOf] at h
    cases hb : formatFlight i f currency with
    | none => rw [hb] at h; cases h
    | some b =>
      rw [hb] at h
      cases hbs : blocksOf currency (i + 1) rest with
      | none => rw [hbs] at h; cases h
      | some bs =>
        rw [hbs] at h
        cases h
        have htot : i + (f :: rest).length = (i + 1) + rest.length := by
          simp [List.length_cons]; omega
        cases rest with
        | nil =>
          simp only [blocksOf] at hbs
          cases hbs
          rw [formatFlights_cons, hb]
          simp [formatFlights, joinWithDivider]
        | cons g rest2 =>
          have hbs2 : ∃ b2 bs2, bs = b2 :: bs2 := by
            simp only [blocksOf] at hbs
            cases h2 : formatFlight (i + 1) g currency with
            | none => rw [h2] at hbs; cases hbs
            | some b2 =>
              rw [h2] at hbs
              cases h3 : blocksOf currency (i + 1 + 1) rest2 with
              | none => rw [h3] at hbs; cases hbs
              | some bs2 => rw [h3] at hbs; cases hbs; exact ⟨b2, bs2, rfl⟩
          obtain ⟨b2, bs2, rfl⟩ := hbs2
          have htail := ih (i + 1) (b2 :: bs2) currency hbs
          have hlt : i < (i + 1) + (g :: rest2).length - 1 := by
            simp [List.length_cons]; omega
          rw [htot, formatFlights_cons, hb, htail, if_pos hlt]
          rfl

/-- C9: for a non-empty offers array whose blocks all format, the output
is the count header followed by the blocks joined with exactly one
`\n---\n\n` divider between each pair of consecutive blocks and no
divider after the final one. -/
theorem divider_between_offers (response : Json) (currency : String)
    (data : List Json) (blocks : List String)
    (hdata : (response.get "data").bind Json.as_array = some data)
    (hne : data ≠ [])
    (hblocks : blocksOf currency 0 data = some blocks) :
    format_flight_results response currency =
      some ("Found " ++ toString data.length ++ " flights matching your criteria:\n\n" ++
        joinWithDivider blocks) := by
  have hlen : ¬ data.length = 0 := by simpa using hne
  have hloop := formatFlights_eq_joinWithDivider data 0 blocks currency hblocks
  rw [Nat.zero_add] at hloop
  unfold format_flight_results
  simp only [hdata]
  rw [if_neg hlen, hloop]

set_option maxRecDepth 100000 in
/-- Witness for C9 at a two-offer array of empty objects. -/
theorem divider_between_offers_witness :
    format_flight_results (Json.obj [("data", Json.arr [Json.obj [], Json.obj []])]) "EUR" =
      some ("Found 2 flights matching your criteria:\n\nFlight 1: Unknown (???) → Unknown (???)\nPrice: 0.00 EUR\nDeparture: Unknown\nArrival: Unknown\nDuration: 0h 0m\nAirline(s): Unknown\nStops: Direct flight\nBaggage information not available\nBooking link: Booking link not available\n\n---\n\nFlight 2: Unknown (???) → Unknown (???)\nPrice: 0.00 EUR\nDeparture: Unknown\nArrival: Unknown\nDuration: 0h 0m\nAirline(s): Unknown\nStops: Direct flight\nBaggage information not available\nBooking link: Booking link not available\n") :=
  divider_between_offers (Json.obj [("data", Json.arr [Json.obj [], Json.obj []])]) "EUR"
    [Json.obj [], Json.obj []]
    ["Flight 1: Unknown (???) → Unknown (???)\nPrice: 0.00 EUR\nDeparture: Unknown\nArrival: Unknown\nDuration: 0h 0m\nAirline(s): Unknown\nStops: Direct flight\nBaggage information not available\nBooking link: Booking link not available\n",
     "Flight 2: Unknown (???) → Unknown (???)\nPrice: 0.00 EUR\nDeparture: Unknown\nArrival: Unknown\nDuration: 0h 0m\nAirline(s): Unknown\nStops: Direct flight\nBaggage information not available\nBooking link: Booking link not available\n"]
    rfl (by simp) rfl

/-- C7: for any offer (with its route absent or present non-empty, so
the stop computation does not overflow), the formatter emits the complete
per-offer block in the fixed line order — route line, price, departure,
arrival, duration, airlines, stops, baggage, booking link — resolving
each displayed field independently, and substitutes the documented
placeholder (`Unknown`, `???`, `0.00`, `0h 0m`, the fixed baggage and
booking messages) for every field that is absent; one missing field never
aborts the rest of the block. -/
theorem offer_block_fixed_order_with_placeholders (flight : Json) (i : Nat)
    (currency : String)
    (hroute : flight.get "route" = none ∨
      ∃ rs, (flight.get "route").bind Json.as_array = some rs ∧ rs ≠ []) :
    ∃ fr frc t tc pr dep arr hrs mins al stopsD bag lnk tail,
      formatFlight i flight currency =
        some ("Flight " ++ toString (i + 1) ++ ": " ++ fr ++ " (" ++ frc ++
          ") → " ++ t ++ " (" ++ tc ++ ")\n" ++
          "Price: " ++ pr ++ " " ++ currency ++ "\n" ++
          "Departure: " ++ dep ++ "\n" ++
          "Arrival: " ++ arr ++ "\n" ++
          "Duration: " ++ hrs ++ "h " ++ mins ++ "m\n" ++
          "Airline(s): " ++ al ++ "\n" ++
          "Stops: " ++ stopsD ++ "\n" ++
          bag ++ "\n" ++
          "Booking link: " ++ lnk ++ "\n" ++ tail) ∧
      (flight.get "cityFrom" = none → fr = "Unknown") ∧
      (flight.get "cityTo" = none → t = "Unknown") ∧
      (flight.get "flyFrom" = none → frc = "???") ∧
      (flight.get "flyTo" = none → tc = "???") ∧
      (flight.get "price" = none → pr = "0.00") ∧
      (flight.get "local_departure" = none → dep = "Unknown") ∧
      (flight.get "local_arrival" = none → arr = "Unknown") ∧
      (flight.get "duration" = none → hrs = "0" ∧ mins = "0") ∧
      (flight.get "airlines" = none → al = "Unknown") ∧
      (flight.get "deep_link" = none → lnk = "Booking link not available") ∧
      (flight.get "bags_price" = none → bag = "Baggage information not available") ∧
      (flight.get "route" = none → stopsD = "Direct flight" ∧ tail = "") := by
  have hst : ∃ st, stopsOf flight = some st := by
    rcases hroute with h | ⟨rs, hrs, hne⟩
    · exact ⟨0, by unfold stopsOf; rw [h]; rfl⟩
    · have : ¬ rs.length = 0 := by simpa using hne
      exact ⟨rs.length - 1, by unfold stopsOf; rw [hrs]; simp [this]⟩
  obtain ⟨st, hstops⟩ := hst
  refine ⟨((flight.get "cityFrom").bind Json.as_str).getD "Unknown",
    ((flight.get "flyFrom").bind Json.as_str).getD "???",
    ((flight.get "cityTo").bind Json.as_str).getD "Unknown",
    ((flight.get "flyTo").bind Json.as_str).getD "???",
    fmtF2 (((flight.get "price").bind Json.as_f64).getD 0),
    format_timestamp (((flight.get "local_departure").bind Json.as_str).getD "Unknown"),
    format_timestamp (((flight.get "local_arrival").bind Json.as_str).getD "Unknown"),
    toString (Int.tdiv ((((flight.get "duration").bind (fun d => d.get "total")).bind
      Json.as_i64).getD 0) 60),
    toString (Int.tmod ((((flight.get "duration").bind (fun d => d.get "total")).bind
      Json.as_i64).getD 0) 60),
    (((flight.get "airlines").bind Json.as_array).map fun airlines =>
      String.intercalate ", " (airlines.filterMap Json.as_str)).getD "Unknown",
    stop_description st, baggage_info flight currency,
    ((flight.get "deep_link").bind Json.as_str).getD "Booking link not available",
    routeDetails flight st, ?_, ?_, ?_, ?_, ?_, ?_, ?_, ?_, ?_, ?_, ?_, ?_, ?_⟩
  · simp only [formatFlight, hstops]
  · intro h; simp only [h, Option.bind, Option.getD]
  · intro h; simp only [h, Option.bind, Option.getD]
  · intro h; simp only [h, Option.bind, Option.getD]
  · intro h; simp only [h, Option.bind, Option.getD]
  · intro h; simp only [h, Option.bind, Option.getD]; rfl
  · intro h; simp only [h, Option.bind, Option.getD]; rfl
  · intro h; simp only [h, Option.bind, Option.getD]; rfl
  · intro h; simp only [h, Option.bind, Option.getD]; exact ⟨rfl, rfl⟩
  · intro h; simp only [h, Option.bind, Option.map, Option.getD]
  · intro h; simp only [h, Option.bind, Option.getD]
  · intro h; simp only [baggage_info, h]
  · intro h
    have h0 : st = 0 := by
      rw [show stopsOf flight = some 0 from by unfold stopsOf; rw [h]; rfl] at hstops
      cases hstops; rfl
    subst h0
    exact ⟨rfl, rfl⟩

/-- Witness for C7 at an offer missing every optional display field. -/
theorem offer_block_fixed_order_with_placeholders_witness :
    ∃ fr frc t tc pr dep arr hrs mins al stopsD bag lnk tail,
      formatFlight 0 (Json.obj []) "EUR" =
        some ("Flight " ++ toString (0 + 1) ++ ": " ++ fr ++ " (" ++ frc ++
          ") → " ++ t ++ " (" ++ tc ++ ")\n" ++
          "Price: " ++ pr ++ " " ++ "EUR" ++ "\n" ++
          "Departure: " ++ dep ++ "\n" ++
          "Arrival: " ++ arr ++ "\n" ++
          "Duration: " ++ hrs ++ "h " ++ mins ++ "m\n" ++
          "Airline(s): " ++ al ++ "\n" ++
          "Stops: " ++ stopsD ++ "\n" ++
          bag ++ "\n" ++
          "Booking link: " ++ lnk ++ "\n" ++ tail) ∧
      ((Json.obj []).get "cityFrom" = none → fr = "Unknown") ∧
      ((Json.obj []).get "cityTo" = none → t = "Unknown") ∧
      ((Json.obj []).get "flyFrom" = none → frc = "???") ∧
      ((Json.obj []).get "flyTo" = none → tc = "???") ∧
      ((Json.obj []).get "price" = none → pr = "0.00") ∧
      ((Json.obj []).get "local_departure" = none → dep = "Unknown") ∧
      ((Json.obj []).get "local_arrival" = none → arr = "Unknown") ∧
      ((Json.obj []).get "duration" = none → hrs = "0" ∧ mins = "0") ∧
      ((Json.obj []).get "airlines" = none → al = "Unknown") ∧
      ((Json.obj []).get "deep_link" = none → lnk = "Booking link not available") ∧
      ((Json.obj []).get "bags_price" = none → bag = "Baggage information not available") ∧
      ((Json.obj []).get "route" = none → stopsD = "Direct flight" ∧ tail = "") :=
  offer_block_fixed_order_with_placeholders (Json.obj []) 0 "EUR" (Or.inl rfl)

theorem digitChar_isDigit (n : Nat) : (digitChar n).isDigit = true := by
  have hk : ∀ k, k < 10 → (Char.ofNat (48 + k)).isDigit = true := by decide
  have h : n % 10 < 10 := Nat.mod_lt _ (by norm_num)
  exact hk (n % 10) h

theorem char_digit_sub_le (c : Char) (h : c.isDigit = true) : c.toNat - 48 ≤ 9 := by
  simp only [Char.isDigit, Bool.and_eq_true, decide_eq_true_eq] at h
  obtain ⟨h1, h2⟩ := h
  have g1 : (48:UInt32).toNat ≤ c.val.toNat := h1
  have g2 : c.val.toNat ≤ (57:UInt32).toNat := h2
  have e1 : (48:UInt32).toNat = 48 := rfl
  have e2 : (57:UInt32).toNat = 57 := rfl
  rw [e1] at g1
  rw [e2] at g2
  simp [Char.toNat]
  omega

theorem readDigits_lt : ∀ (n acc : Nat) (cs : List Char) (v : Nat) (rest : List Char),
    readDigits n acc cs = some (v, rest) → v < (acc + 1) * 10 ^ n := by
  intro n
  induction n with
  | zero =>
    intro acc cs v rest h
    simp only [readDigits] at h
    cases h
    simp
  | succ m ih =>
    intro acc cs v rest h
    cases cs with
    | nil => simp [readDigits] at h
    | cons c cs =>
      simp only [readDigits] at h
      by_cases hd : c.isDigit
      · rw [if_pos hd] at h
        have hb := ih (acc * 10 + (c.toNat - 48)) cs v rest h
        have hd9 : c.toNat - 48 ≤ 9 := char_digit_sub_le c hd
        have hstep : (acc * 10 + (c.toNat - 48) + 1) ≤ (acc + 1) * 10 := by omega
        calc v < (acc * 10 + (c.toNat - 48) + 1) * 10 ^ m := hb
          _ ≤ ((acc + 1) * 10) * 10 ^ m := Nat.mul_le_mul_right _ hstep
          _ = (acc + 1) * 10 ^ (m + 1) := by ring
      · rw [if_neg hd] at h; cases h

theorem parseRfcFields_year_lt (cs : List Char) (f : RfcFields)
    (h : parseRfcFields cs = some f) : f.year < 10000 := by
  unfold parseRfcFields at h
  cases h1 : readDigits 4 0 cs with
  | none => rw [h1] at h; cases h
  | some p =>
  obtain ⟨year, cs1⟩ := p
  rw [h1] at h
  simp only [] at h
  have hy : year < 10000 := by simpa using readDigits_lt 4 0 cs year cs1 h1
  cases h2 : expectChar '-' cs1 with
  | none => rw [h2] at h; simp at h
  | some cs2 =>
  rw [h2] at h
  simp only [] at h
  cases h3 : readDigits 2 0 cs2 with
  | none => rw [h3] at h; simp at h
  | some p =>
  obtain ⟨month, cs3⟩ := p
  rw [h3] at h
  simp only [] at h
  cases h4 : expectChar '-' cs3 with
  | none => rw [h4] at h; simp at h
  | some cs4 =>
  rw [h4] at h
  simp only [] at h
  cases h5 : readDigits 2 0 cs4 with
  | none => rw [h5] at h; simp at h
  | some p =>
  obtain ⟨day, cs5⟩ := p
  rw [h5] at h
  simp only [] at h
  cases cs5 with
  | nil => simp at h
  | cons c cs6 =>
  simp only [] at h
  by_cases hT : c = 'T' ∨ c = 't'
  case neg => rw [if_neg hT] at h; cases h
  rw [if_pos hT] at h
  cases h6 : readDigits 2 0 cs6 with
  | none => rw [h6] at h; simp at h
  | some p =>
  obtain ⟨hour, cs7⟩ := p
  rw [h6] at h
  simp only [] at h
  cases h7 : expectChar ':' cs7 with
  | none => rw [h7] at h; simp at h
  | some cs8 =>
  rw [h7] at h
  simp only [] at h
  cases h8 : readDigits 2 0 cs8 with
  | none => rw [h8] at h; simp at h
  | some p =>
  obtain ⟨minute, cs9⟩ := p
  rw [h8] at h
  simp only [] at h
  cases h9 : expectChar ':' cs9 with
  | none => rw [h9] at h; simp at h
  | some cs10 =>
  rw [h9] at h
  simp only [] at h
  cases h10 : readDigits 2 0 cs10 with
  | none => rw [h10] at h; simp at h
  | some p =>
  obtain ⟨second, cs11⟩ := p
  rw [h10] at h
  simp only [] at h
  cases h11 : (match cs11 with | '.' :: rest => skipDigits1 rest | rest => some rest) with
  | none => rw [h11] at h; simp at h
  | some cs12 =>
  rw [h11] at h
  simp only [] at h
  cases cs12 with
  | nil => simp at h
  | cons c2 rest =>
  simp only [] at h
  by_cases hz : c2 = 'Z' ∨ c2 = 'z'
  · rw [if_pos hz] at h
    cases rest with
    | nil => cases h; exact hy
    | cons d rest2 => simp at h
  · rw [if_neg hz] at h
    by_cases hpm : c2 = '+' ∨ c2 = '-'
    · rw [if_pos hpm] at h
      cases h12 : readDigits 2 0 rest with
      | none => rw [h12] at h; simp at h
      | some p =>
      obtain ⟨offHour, r1⟩ := p
      rw [h12] at h
      simp only [] at h
      cases h13 : expectChar ':' r1 with
      | none => rw [h13] at h; simp at h
      | some r2 =>
      rw [h13] at h
      simp only [] at h
      cases h14 : readDigits 2 0 r2 with
      | none => rw [h14] at h; simp at h
      | some p =>
      obtain ⟨offMinute, r3⟩ := p
      rw [h14] at h
      simp only [] at h
      cases r3 with
      | nil => cases h; exact hy
      | cons e rest3 => simp at h
    · rw [if_neg hpm] at h
      cases h

theorem daysInMonth_le (y m : Nat) : daysInMonth y m ≤ 31 := by
  unfold daysInMonth
  split_ifs <;> norm_num

theorem dateShape_of_digits (d1 d2 y1 y2 y3 y4 h1 h2 n1 n2 : Char) (mon : String)
    (hd1 : d1.isDigit = true) (hd2 : d2.isDigit = true)
    (hy1 : y1.isDigit = true) (hy2 : y2.isDigit = true)
    (hy3 : y3.isDigit = true) (hy4 : y4.isDigit = true)
    (hh1 : h1.isDigit = true) (hh2 : h2.isDigit = true)
    (hn1 : n1.isDigit = true) (hn2 : n2.isDigit = true)
    (hmon : mon ∈ ["Jan", "Feb", "Mar", "Apr", "May", "Jun", "Jul", "Aug", "Sep",
      "Oct", "Nov", "Dec"]) :
    dateShape (String.mk [d1, d2] ++ " " ++ mon ++ " " ++ String.mk [y1, y2, y3, y4] ++
      ", " ++ String.mk [h1, h2] ++ ":" ++ String.mk [n1, n2]) = true := by
  fin_cases hmon <;>
    simp [dateShape, String.toList, hd1, hd2, hy1, hy2, hy3, hy4, hh1, hh2, hn1, hn2]

theorem dateShape_render (dt : RfcDateTime) (h1 : 1 ≤ dt.month) (h2 : dt.month ≤ 12) :
    dateShape (renderDateTime dt) = true := by
  obtain ⟨y, m, d, hh, mm⟩ := dt
  simp only [] at h1 h2
  have hmon : monthName m ∈ ["Jan", "Feb", "Mar", "Apr", "May", "Jun", "Jul", "Aug",
      "Sep", "Oct", "Nov", "Dec"] := by
    interval_cases m <;> simp [monthName]
  have hd := dateShape_of_digits (digitChar (d / 10)) (digitChar d)
    (digitChar (y / 1000)) (digitChar (y / 100)) (digitChar (y / 10)) (digitChar y)
    (digitChar (hh / 10)) (digitChar hh) (digitChar (mm / 10)) (digitChar mm)
    (monthName m)
    (digitChar_isDigit _) (digitChar_isDigit _) (digitChar_isDigit _)
    (digitChar_isDigit _) (digitChar_isDigit _) (digitChar_isDigit _)
    (digitChar_isDigit _) (digitChar_isDigit _) (digitChar_isDigit _)
    (digitChar_isDigit _) hmon
  simpa [renderDateTime, pad2, pad4] using hd

/-- C8: a departure or arrival string accepted by the RFC 3339 parser is
re-rendered as `DD Mon YYYY, HH:MM` (two digits, space, three-letter month
abbreviation, space, four digits, comma, space, `HH:MM`), and the parsed
wall-clock fields lie in the ranges (month 1-12, day 1-31, hour 0-23,
minute 0-59, four-digit year) under which the zero-padded rendering is the
faithful image of chrono's `%d %b %Y, %H:%M`; a string the parser rejects
passes through to the output verbatim. -/
theorem timestamp_rendering (s : String) :
    (∀ dt, parse_from_rfc3339 s = some dt →
      format_timestamp s = renderDateTime dt ∧ dateShape (renderDateTime dt) = true ∧
      1 ≤ dt.month ∧ dt.month ≤ 12 ∧ 1 ≤ dt.day ∧ dt.day ≤ 31 ∧ dt.hour ≤ 23 ∧
      dt.minute ≤ 59 ∧ dt.year < 10000) ∧
    (parse_from_rfc3339 s = none → format_timestamp s = s) := by
  constructor
  · intro dt hp
    have hfmt : format_timestamp s = renderDateTime dt := by
      unfold format_timestamp
      rw [hp]
    refine ⟨hfmt, ?_⟩
    unfold parse_from_rfc3339 at hp
    cases hf : parseRfcFields s.toList with
    | none => rw [hf] at hp; cases hp
    | some f =>
      rw [hf] at hp
      simp only [] at hp
      by_cases hv : validRfcFields f = true
      · rw [if_pos hv] at hp
        cases hp
        unfold validRfcFields at hv
        simp only [decide_eq_true_eq] at hv
        obtain ⟨hm1, hm2, hd1, hd2, hh, hmin, hsec, hoh, hom⟩ := hv
        have hyear := parseRfcFields_year_lt s.toList f hf
        have hd31 : f.day ≤ 31 := le_trans hd2 (daysInMonth_le f.year f.month)
        exact ⟨dateShape_render ⟨f.year, f.month, f.day, f.hour, f.minute⟩ hm1 hm2,
          hm1, hm2, hd1, hd31, hh, hmin, hyear⟩
      · rw [if_neg hv] at hp; cases hp
  · intro hp
    unfold format_timestamp
    rw [hp]

/-- Witness for C8: a timestamp that parses is re-rendered in the date
pattern, and one that does not parse passes through unchanged. -/
theorem timestamp_rendering_witness :
    format_timestamp "2024-03-15T14:30:00Z" = "15 Mar 2024, 14:30" ∧
    dateShape "15 Mar 2024, 14:30" = true ∧
    format_timestamp "not-a-timestamp" = "not-a-timestamp" := by
  have h1 := (timestamp_rendering "2024-03-15T14:30:00Z").1 ⟨2024, 3, 15, 14, 30⟩ rfl
  have h2 := (timestamp_rendering "not-a-timestamp").2 rfl
  exact ⟨h1.1, h1.2.1, h2⟩
